import Mathlib

/- Verification development for the NPPIC capacity-report extraction pipeline
   (source: NPPIC.py).  The spreadsheet cells, the header locator, the row
   classifier, the record builder, the region aggregator and the period
   orchestrator are embedded as executable Lean definitions over exact
   rationals (Python floats are modelled as ℚ; the real data never exercises
   binary-float rounding at the granularity of the claims). -/

/-- Python whitespace characters recognised by `str.strip()`. -/
def pyWS (c : Char) : Bool :=
  c == ' ' || c == '\t' || c == '\n' || c == '\r' || c == '\x0b' || c == '\x0c'

/-- Drop leading Python whitespace from a character list. -/
def dropWS : List Char → List Char
  | [] => []
  | c :: cs => if pyWS c then dropWS cs else c :: cs

/-- Characters of a string after `str.strip()`. -/
def pyStripL (l : List Char) : List Char :=
  (dropWS (dropWS l).reverse).reverse

/-- Model of Python `str.strip()`. -/
def pyStrip (s : String) : String := String.mk (pyStripL s.data)

/-- Model of Python `str.upper()` (ASCII, which is all the source labels use). -/
def pyUpper (s : String) : String := String.mk (s.data.map Char.toUpper)

/-- Check that `p` is an initial segment of `l` (used for substring search). -/
def charsHasPre : List Char → List Char → Bool
  | [], _ => true
  | _ :: _, [] => false
  | a :: as, b :: bs => a == b && charsHasPre as bs

/-- Check that `p` occurs contiguously inside `l`. -/
def charsHasSub (p : List Char) : List Char → Bool
  | [] => p.isEmpty
  | b :: bs => charsHasPre p (b :: bs) || charsHasSub p bs

/-- Model of Python `pat in s` on strings (substring containment). -/
def strHas (s pat : String) : Bool := charsHasSub pat.data s.data

/-- Model of Python `s.startswith(pat)`. -/
def strStarts (s pat : String) : Bool := charsHasPre pat.data s.data

/-- Model of Python `str.isdigit()` for ASCII content: nonempty and all digits. -/
def pyIsDigit (s : String) : Bool := !s.data.isEmpty && s.data.all Char.isDigit

/-- Value of a list of decimal digit characters. -/
def digitsToNat (ds : List Char) : Nat :=
  ds.foldl (fun a c => a * 10 + (c.toNat - 48)) 0

/-- Split a character list into its leading run of decimal digits and the rest. -/
def splitDigits : List Char → List Char × List Char
  | [] => ([], [])
  | c :: cs =>
    if c.isDigit then
      let p := splitDigits cs
      (c :: p.1, p.2)
    else ([], c :: cs)

/-- Parse the exponent part of a decimal literal (after the `e`/`E`). -/
def parseExp : List Char → Option Int
  | '+' :: cs =>
    let p := splitDigits cs
    if p.1.isEmpty || !p.2.isEmpty then none else some (digitsToNat p.1 : Int)
  | '-' :: cs =>
    let p := splitDigits cs
    if p.1.isEmpty || !p.2.isEmpty then none else some (-(digitsToNat p.1 : Int))
  | cs =>
    let p := splitDigits cs
    if p.1.isEmpty || !p.2.isEmpty then none else some (digitsToNat p.1 : Int)

/-- Assemble mantissa digits and an optional exponent tail into a rational. -/
def parseTail (ip fp rest : List Char) : Option ℚ :=
  if ip.isEmpty && fp.isEmpty then none
  else
    let m : ℚ := (digitsToNat ip : ℚ) + (digitsToNat fp : ℚ) / ((10 : ℚ) ^ fp.length)
    match rest with
    | [] => some m
    | 'e' :: r => (parseExp r).map (fun e => m * (10 : ℚ) ^ e)
    | 'E' :: r => (parseExp r).map (fun e => m * (10 : ℚ) ^ e)
    | _ => none

/-- Parse an unsigned decimal literal (integer part, optional fraction, optional
exponent). -/
def parseRatCore (cs : List Char) : Option ℚ :=
  let p := splitDigits cs
  match p.2 with
  | '.' :: r2 =>
    let q := splitDigits r2
    parseTail p.1 q.1 q.2
  | r => parseTail p.1 [] r

/-- Model of Python `float()` on finite decimal/scientific literals, as exact
rationals.  The special spellings `inf`/`nan` and digit underscores cannot
arise in the rational embedding and are outside its scope (they parse to
nothing, i.e. they are treated like non-numeric text). -/
def parseRat (s : String) : Option ℚ :=
  match s.data with
  | '+' :: cs => parseRatCore cs
  | '-' :: cs => (parseRatCore cs).map Neg.neg
  | cs => parseRatCore cs

/-- A raw spreadsheet cell: missing (`NaN` under pandas), text, or a number.
Numbers are exact rationals standing for the Python floats. -/
inductive Cell
  | empty
  | text (s : String)
  | num (q : ℚ)
deriving DecidableEq

/-- Python `str()` of a numeric cell.  For whole numbers this is exactly the
Python float repr (`"100.0"`); for other rationals it is some digit/`/` string,
which — like every Python float repr — contains no letters, is not `isdigit`,
and matches no header label, which is all downstream code observes. -/
def pyNumStr (q : ℚ) : String :=
  if q.den == 1 then toString q.num ++ ".0" else toString q

/-- The string the header scan sees for a cell: `None` for `NaN` (the scan
skips it), otherwise Python `str(cell)`. -/
def cellHdrStr : Cell → Option String
  | Cell.empty => none
  | Cell.text s => some s
  | Cell.num q => some (pyNumStr q)

/-- The string the row classifier sees for a cell:
`str(cell).strip()` when the cell is not `NaN`, else the sentinel `"nan"`. -/
def pyCellStr : Cell → String
  | Cell.empty => "nan"
  | Cell.text s => pyStrip s
  | Cell.num q => pyStrip (pyNumStr q)

/-- Model of `safe_numeric_convert` from NPPIC.py: `NaN` ↦ 0; a numeric cell is
its own value (Python `float(str(x))` round-trips floats); text is stripped,
the sentinels `"nan"`/`""`/`"None"` and unparseable text become 0, and decimal
text parses to its value. -/
def safe_numeric_convert : Cell → ℚ
  | Cell.empty => 0
  | Cell.num q => q
  | Cell.text s =>
    let t := pyStrip s
    if t == "nan" || t == "" || t == "None" then 0
    else
      match parseRat t with
      | some q => q
      | none => 0

/-- Model of pandas `.round(2)`: round to two decimal places, ties to even
(numpy banker's rounding). -/
def rnd2 (q : ℚ) : ℚ :=
  let x := q * 100
  let f : Int := ⌊x⌋
  let r := x - (f : ℚ)
  let n : Int :=
    if r < 1/2 then f
    else if r > 1/2 then f + 1
    else if f % 2 = 0 then f else f + 1
  (n : ℚ) / 100

/-- A rational is an exact multiple of one hundredth (two decimal places). -/
def isCenti (q : ℚ) : Prop := (q * 100).den = 1

/-- State of the header scan of `process_excel_file` (NPPIC.py lines 105-180):
the detected column index of each field, with the code's defaults, plus the
list of row indices where some label matched (the code keeps a set; only
emptiness and the maximum are ever used, so a list with duplicates is an
equivalent model). -/
structure HeaderState where
  coal_col : Option Nat := none
  lignite_col : Option Nat := none
  gas_col : Option Nat := none
  diesel_col : Option Nat := none
  nuclear_col : Option Nat := none
  hydro_col : Option Nat := none
  res_col : Option Nat := none
  total_col : Option Nat := none
  state_col : Nat := 1
  sector_col : Option Nat := none
  header_rows : List Nat := []
deriving DecidableEq

/-- Record a row index as a header row. -/
def addHR (idx : Nat) (st : HeaderState) : HeaderState :=
  { st with header_rows := st.header_rows ++ [idx] }

/-- Label test for the state column: `cell_str == 'STATE'`. -/
def isStateLabel (s : String) : Bool := s == "STATE"

/-- Label test for the sector column. -/
def isSectorLabel (s : String) : Bool := strHas s "OWNERSHIP/SECTOR" || s == "SECTOR"

/-- Label test for the coal column (`COAL` present, `LIGNITE` absent). -/
def isCoalLabel (s : String) : Bool := strHas s "COAL" && !(strHas s "LIGNITE")

/-- Label test for the grand-total column (`GRAND`, or `TOTAL` past column 8). -/
def isTotalLabel (ci : Nat) (s : String) : Bool :=
  strHas s "GRAND" || (strHas s "TOTAL" && decide (8 < ci))

/-- Header-scan update for the state column (unconditional assignment: a later
match overwrites an earlier one). -/
def updStateCol (idx ci : Nat) (s : String) (st : HeaderState) : HeaderState :=
  if isStateLabel s then addHR idx { st with state_col := ci } else st

/-- Header-scan update for the sector column (unconditional assignment). -/
def updSectorCol (idx ci : Nat) (s : String) (st : HeaderState) : HeaderState :=
  if isSectorLabel s then addHR idx { st with sector_col := some ci } else st

/-- Header-scan update for the coal column (first match wins). -/
def updCoalCol (idx ci : Nat) (s : String) (st : HeaderState) : HeaderState :=
  if isCoalLabel s then
    if st.coal_col.isNone then addHR idx { st with coal_col := some ci } else st
  else st

/-- Header-scan update for the lignite column (first match wins). -/
def updLigniteCol (idx ci : Nat) (s : String) (st : HeaderState) : HeaderState :=
  if strHas s "LIGNITE" then
    if st.lignite_col.isNone then addHR idx { st with lignite_col := some ci } else st
  else st

/-- Header-scan update for the gas column (first match wins). -/
def updGasCol (idx ci : Nat) (s : String) (st : HeaderState) : HeaderState :=
  if strHas s "GAS" then
    if st.gas_col.isNone then addHR idx { st with gas_col := some ci } else st
  else st

/-- Header-scan update for the diesel column (first match wins). -/
def updDieselCol (idx ci : Nat) (s : String) (st : HeaderState) : HeaderState :=
  if strHas s "DIESEL" then
    if st.diesel_col.isNone then addHR idx { st with diesel_col := some ci } else st
  else st

/-- Header-scan update for the nuclear column (first match wins). -/
def updNuclearCol (idx ci : Nat) (s : String) (st : HeaderState) : HeaderState :=
  if strHas s "NUCLEAR" then
    if st.nuclear_col.isNone then addHR idx { st with nuclear_col := some ci } else st
  else st

/-- Header-scan update for the hydro column (first match wins). -/
def updHydroCol (idx ci : Nat) (s : String) (st : HeaderState) : HeaderState :=
  if strHas s "HYDRO" then
    if st.hydro_col.isNone then addHR idx { st with hydro_col := some ci } else st
  else st

/-- Header-scan update for the RES column (first match wins). -/
def updResCol (idx ci : Nat) (s : String) (st : HeaderState) : HeaderState :=
  if strHas s "RES" then
    if st.res_col.isNone then addHR idx { st with res_col := some ci } else st
  else st

/-- Header-scan update for the grand-total column (first match wins). -/
def updTotalCol (idx ci : Nat) (s : String) (st : HeaderState) : HeaderState :=
  if isTotalLabel ci s then
    if st.total_col.isNone then addHR idx { st with total_col := some ci } else st
  else st

/-- Process one cell of the header scan: skip `NaN`, otherwise uppercase and
strip and run the ten label tests in the order of the source. -/
def applyHeaderCell (idx ci : Nat) (cell : Cell) (st : HeaderState) : HeaderState :=
  match cellHdrStr cell with
  | none => st
  | some raw =>
    let s := pyStrip (pyUpper raw)
    updTotalCol idx ci s (updResCol idx ci s (updHydroCol idx ci s
      (updNuclearCol idx ci s (updDieselCol idx ci s (updGasCol idx ci s
        (updLigniteCol idx ci s (updCoalCol idx ci s
          (updSectorCol idx ci s (updStateCol idx ci s st)))))))))

/-- The cells visited by the header scan, in scan order: the first 15 rows,
each cell tagged with its row and column index. -/
def headerCells (grid : List (List Cell)) : List (Nat × Nat × Cell) :=
  ((grid.take 15).enum.map (fun p => p.2.enum.map (fun q => (p.1, q.1, q.2)))).flatten

/-- Fold the header-cell updates over a cell sequence. -/
def headerFold (l : List (Nat × Nat × Cell)) (st : HeaderState) : HeaderState :=
  l.foldl (fun st t => applyHeaderCell t.1 t.2.1 t.2.2 st) st

/-- The header locator: scan the first 15 rows of the grid. -/
def headerScan (grid : List (List Cell)) : HeaderState :=
  headerFold (headerCells grid) {}

/-- Sector-column fallback (NPPIC.py lines 175-177): when no sector label was
found, column 2 if lignite was never found (older format), else column 3. -/
def sectorColOf (hs : HeaderState) : Nat :=
  match hs.sector_col with
  | some c => c
  | none => if hs.lignite_col.isNone then 2 else 3

/-- Maximum of a list of naturals (0 on the empty list). -/
def maxNatList (l : List Nat) : Nat := l.foldl max 0

/-- First data row (NPPIC.py line 180): one past the last header row, or 5 when
no header row was found. -/
def dataStartRow (hs : HeaderState) : Nat :=
  if hs.header_rows.isEmpty then 5 else maxNatList hs.header_rows + 1

/-- A normalized output row, one per state and sector (NPPIC.py lines 250-264).
Date, Region, State and Sector are the strings the code writes; the eight
numeric fields plus the grand total are exact rationals. -/
structure CapacityRecord where
  date : String
  region : String
  state : String
  sector : String
  coal : ℚ
  lignite : ℚ
  gas : ℚ
  diesel : ℚ
  thermal_total : ℚ
  nuclear : ℚ
  hydro : ℚ
  res : ℚ
  total : ℚ
deriving DecidableEq

/-- Numeric extraction for one mapped field (NPPIC.py lines 234-241): absent or
out-of-bounds column gives 0 (the code passes the literal `0` through
`safe_numeric_convert`), otherwise the converted cell. -/
def fieldVal (row : List Cell) : Option Nat → ℚ
  | none => 0
  | some c => if c < row.length then safe_numeric_convert (row.getD c Cell.empty) else 0

/-- The sector-name mapping of NPPIC.py lines 215-219 (only ever applied to the
three uppercase sector labels). -/
def sector_mapping (s : String) : String :=
  if s == "STATE SECTOR" then "State"
  else if s == "PVT SECTOR" then "Private"
  else "Central"

/-- The Record Builder (NPPIC.py lines 213-264): extract the fuel fields from
the detected columns, always recompute the thermal total, fall back to the
component sum when the source grand total is zero, and assemble the record. -/
def buildRecord (hs : HeaderState) (d reg stName secUpper : String)
    (row : List Cell) : CapacityRecord :=
  let coal := fieldVal row hs.coal_col
  let lignite := fieldVal row hs.lignite_col
  let gas := fieldVal row hs.gas_col
  let diesel := fieldVal row hs.diesel_col
  let nuclear := fieldVal row hs.nuclear_col
  let hydro := fieldVal row hs.hydro_col
  let res := fieldVal row hs.res_col
  let grand0 := fieldVal row hs.total_col
  let thermal_total := coal + lignite + gas + diesel
  let grand := if grand0 = 0 then thermal_total + nuclear + hydro + res else grand0
  { date := d, region := reg, state := stName, sector := sector_mapping secUpper,
    coal := coal, lignite := lignite, gas := gas, diesel := diesel,
    thermal_total := thermal_total, nuclear := nuclear, hydro := hydro,
    res := res, total := grand }

/-- The five fixed region names, uppercased, used to detect regional total rows. -/
def regionUpperNames : List String :=
  ["NORTHERN", "EASTERN", "WESTERN", "SOUTHERN", "NORTH EASTERN"]

/-- Python truthiness of the carried `current_state` (None and the empty string
are falsy). -/
def truthyState : Option String → Bool
  | none => false
  | some st => !(st == "")

/-- One step of the Row Classifier (NPPIC.py lines 189-264): read the state and
sector cells, skip fully empty rows, handle state-name/subtotal/region rows
when the sector cell is empty, and otherwise emit a record for a recognised
sector label while a current state is set.  Returns the new carried state and
the emitted record, if any. -/
def stepRow (hs : HeaderState) (secc : Nat) (d reg : String) (cs : Option String)
    (row : List Cell) : Option String × Option CapacityRecord :=
  let s := pyCellStr (row.getD hs.state_col Cell.empty)
  let sec := pyCellStr (row.getD secc Cell.empty)
  let dataCheck : Option String × Option CapacityRecord :=
    if truthyState cs
        && (["STATE SECTOR", "PVT SECTOR", "CENTRAL SECTOR"].contains (pyUpper sec)) then
      (cs, some (buildRecord hs d reg (cs.getD "") (pyUpper sec) row))
    else (cs, none)
  if s == "nan" && sec == "nan" then (cs, none)
  else if sec == "nan" || sec == "" || sec == "None" then
    if strHas s "Total of" || strHas (pyUpper s) "TOTAL OF" then (cs, none)
    else if s != "nan" && !(pyIsDigit s) then
      if regionUpperNames.contains (pyUpper s) || strStarts s "http" then (none, none)
      else (some s, none)
    else dataCheck
  else dataCheck

/-- The data-row loop of `process_excel_file` (NPPIC.py lines 186-267): thread
the carried state through the rows, collecting emitted records.  Accessing a
state or sector cell past the end of a row raises in the source and the whole
file yields nothing; that abort is modelled by `none`. -/
def runRows (hs : HeaderState) (secc : Nat) (d reg : String) :
    Option String → List (List Cell) → Option (Option String × List CapacityRecord)
  | cs, [] => some (cs, [])
  | cs, row :: rest =>
    if hs.state_col < row.length && secc < row.length then
      match runRows hs secc d reg (stepRow hs secc d reg cs row).1 rest with
      | none => none
      | some out =>
        some (out.1, match (stepRow hs secc d reg cs row).2 with
          | some r => r :: out.2
          | none => out.2)
    else none

/-- Model of `process_excel_file` (NPPIC.py lines 86-282) on an already-read
grid: locate the headers, run the data-row loop from the computed start row,
and drop every record whose State equals its Region; a structural failure in
the loop yields an empty result (the outer exception handler). -/
def process_excel_file (grid : List (List Cell)) (d reg : String) : List CapacityRecord :=
  let hs := headerScan grid
  match runRows hs (sectorColOf hs) d reg none (grid.drop (dataStartRow hs)) with
  | none => []
  | some out => out.2.filter (fun r => r.state != r.region)

/-- The five regions in the fixed order of `generate_urls_for_month_year`. -/
def regionNamesList : List String :=
  ["Northern", "Eastern", "Western", "Southern", "North Eastern"]

/-- Outcome of one region in one month: whether its file download succeeded,
and the raw grid read from the file when it did. -/
structure RegionInput where
  downloaded : Bool
  grid : List (List Cell)
deriving DecidableEq

/-- Sum of one numeric field over a record list. -/
def sumField (rs : List CapacityRecord) (f : CapacityRecord → ℚ) : ℚ :=
  (rs.map f).sum

/-- One row of the `groupby('Sector')` aggregation (NPPIC.py lines 429-464):
the records of one sector, each numeric field summed and rounded to two
decimals, labelled Region `All India`, State `ALL INDIA`. -/
def aggRow (d : String) (monthly : List CapacityRecord) (sec : String) : CapacityRecord :=
  let g := monthly.filter (fun r => r.sector == sec)
  { date := d, region := "All India", state := "ALL INDIA", sector := sec,
    coal := rnd2 (sumField g (fun r => r.coal)),
    lignite := rnd2 (sumField g (fun r => r.lignite)),
    gas := rnd2 (sumField g (fun r => r.gas)),
    diesel := rnd2 (sumField g (fun r => r.diesel)),
    thermal_total := rnd2 (sumField g (fun r => r.thermal_total)),
    nuclear := rnd2 (sumField g (fun r => r.nuclear)),
    hydro := rnd2 (sumField g (fun r => r.hydro)),
    res := rnd2 (sumField g (fun r => r.res)),
    total := rnd2 (sumField g (fun r => r.total)) }

/-- The All India roll-up block (NPPIC.py lines 426-487): one aggregated row
per sector present among State/Private/Central (in that order), then one
`Total` row summing the aggregated (already rounded) rows over every sector
present, with the date taken from the first monthly record. -/
def allIndiaRows (monthly : List CapacityRecord) : List CapacityRecord :=
  let d := match monthly.head? with
    | some r => r.date
    | none => ""
  let secs := (monthly.map (fun r => r.sector)).dedup
  let sectorRows :=
    (["State", "Private", "Central"].filter (fun s => secs.contains s)).map
      (aggRow d monthly)
  let overall : CapacityRecord :=
    { date := d, region := "All India", state := "ALL INDIA", sector := "Total",
      coal := (secs.map (fun s => (aggRow d monthly s).coal)).sum,
      lignite := (secs.map (fun s => (aggRow d monthly s).lignite)).sum,
      gas := (secs.map (fun s => (aggRow d monthly s).gas)).sum,
      diesel := (secs.map (fun s => (aggRow d monthly s).diesel)).sum,
      thermal_total := (secs.map (fun s => (aggRow d monthly s).thermal_total)).sum,
      nuclear := (secs.map (fun s => (aggRow d monthly s).nuclear)).sum,
      hydro := (secs.map (fun s => (aggRow d monthly s).hydro)).sum,
      res := (secs.map (fun s => (aggRow d monthly s).res)).sum,
      total := (secs.map (fun s => (aggRow d monthly s).total)).sum }
  sectorRows ++ [overall]

/-- The per-month concatenation (NPPIC.py lines 394-420): the records of every
region whose download succeeded, in region order. -/
def monthlyRecords (d : String) (inputs : List RegionInput) : List CapacityRecord :=
  (((regionNamesList.zip inputs).filter (fun p => p.2.downloaded)).map
    (fun p => process_excel_file p.2.grid d p.1)).flatten

/-- Number of regions whose file download succeeded in a month. -/
def successfulDownloads (inputs : List RegionInput) : Nat :=
  ((regionNamesList.zip inputs).filter (fun p => p.2.downloaded)).length

/-- Model of `process_month_data` (NPPIC.py lines 367-495): nothing when the
availability probe failed; otherwise the monthly concatenation, extended with
the All India roll-up exactly when the concatenation is nonempty and at least
3 downloads succeeded. -/
def process_month_data (avail : Bool) (d : String) (inputs : List RegionInput) :
    List CapacityRecord :=
  if avail then
    if !(monthlyRecords d inputs).isEmpty && 3 ≤ successfulDownloads inputs then
      monthlyRecords d inputs ++ allIndiaRows (monthlyRecords d inputs)
    else monthlyRecords d inputs
  else []

/-- The regions whose download is attempted in a month: all five when the
availability probe succeeded (the loop tries every generated URL), none when
it failed (the month is skipped before any URL is generated). -/
def attemptedDownloads (avail : Bool) : List String :=
  if avail then regionNamesList else []

/-- One month of orchestrator input: the probe outcome and the per-region
outcomes. -/
structure MonthInput where
  avail : Bool
  inputs : List RegionInput
deriving DecidableEq

/-- The `main` loop over the requested months (NPPIC.py lines 546-565): the
master table is the concatenation of the per-month tables in calendar order. -/
def mainLoop (months : List (String × MonthInput)) : List CapacityRecord :=
  (months.map (fun p => process_month_data p.2.avail p.1 p.2.inputs)).flatten

/-- Number of regions that yielded at least one record in a month (downloaded
and extracted nonempty data) — the quantity the specification's roll-up gate
speaks about. -/
def regionsYieldingData (d : String) (inputs : List RegionInput) : Nat :=
  ((regionNamesList.zip inputs).filter
    (fun p => p.2.downloaded && !(process_excel_file p.2.grid d p.1).isEmpty)).length

/-- A synthetic header row in the layout of the source files: every label in
its own column, grand total past column 8. -/
def hdrRow : List Cell :=
  [Cell.text "STATE", Cell.text "SECTOR", Cell.text "COAL", Cell.text "LIGNITE",
   Cell.text "GAS", Cell.text "DIESEL", Cell.text "NUCLEAR", Cell.text "HYDRO",
   Cell.text "RES", Cell.text "GRAND TOTAL"]

/-- A synthetic one-state, one-sector grid whose coal and lignite cells hold
0.004 MW each (sub-centi values that expose the roll-up rounding). -/
def gridA : List (List Cell) :=
  [hdrRow,
   [Cell.text "TestState", Cell.empty],
   [Cell.text "", Cell.text "STATE SECTOR", Cell.num (1/250), Cell.num (1/250),
    Cell.num 0, Cell.num 0, Cell.num 0, Cell.num 0, Cell.num 0, Cell.num 0]]

/-- A month where three downloads succeed but only the first region extracts
any records. -/
def cexInputsA : List RegionInput :=
  [{ downloaded := true, grid := gridA },
   { downloaded := true, grid := [] },
   { downloaded := true, grid := [] },
   { downloaded := false, grid := [] },
   { downloaded := false, grid := [] }]

/-- A synthetic grid with a negative coal cell (text `"-5"`). -/
def gridNeg : List (List Cell) :=
  [hdrRow,
   [Cell.text "TestState", Cell.empty],
   [Cell.text "", Cell.text "STATE SECTOR", Cell.text "-5"]]

/-- A synthetic grid whose values are all exact multiples of 0.01, like the
real reports. -/
def gridW : List (List Cell) :=
  [hdrRow,
   [Cell.text "TestState", Cell.empty],
   [Cell.text "", Cell.text "STATE SECTOR", Cell.num (3/2), Cell.num (1/4),
    Cell.num 2, Cell.num 0, Cell.num 1, Cell.num 3, Cell.num (1/2), Cell.num 0]]

/-- A month built from `gridW` with three successful downloads. -/
def inputsW : List RegionInput :=
  [{ downloaded := true, grid := gridW },
   { downloaded := true, grid := [] },
   { downloaded := true, grid := [] },
   { downloaded := false, grid := [] },
   { downloaded := false, grid := [] }]

/-- The Row Classifier scenario of the specification: state row, two sector
rows, a `Total of` row, then the next state row. -/
def rowsC6 : List (List Cell) :=
  [[Cell.text "Maharashtra", Cell.empty],
   [Cell.text "", Cell.text "STATE SECTOR", Cell.num 100],
   [Cell.text "", Cell.text "PVT SECTOR", Cell.num 50],
   [Cell.text "Total of Maharashtra", Cell.empty],
   [Cell.text "Gujarat", Cell.empty]]

/-- A column map for the classifier scenario: state in column 0, sector in
column 1, coal in column 2. -/
def hsC6 : HeaderState :=
  { coal_col := some 2, state_col := 0, sector_col := some 1, header_rows := [0] }

/-- The Header Locator scenario of the specification: `COAL (MW)` in row 3
column 4, `LIGNITE` in row 3 column 5, nothing else anywhere. -/
def gridC7 : List (List Cell) :=
  [[], [], [],
   [Cell.empty, Cell.empty, Cell.empty, Cell.empty,
    Cell.text "COAL (MW)", Cell.text "LIGNITE"]]

lemma getD_mem_of_lt : ∀ (l : List Cell) (c : Nat), c < l.length → l.getD c Cell.empty ∈ l
  | [], c, h => absurd h (by simp)
  | a :: as, 0, _ => List.mem_cons_self a as
  | a :: as, c + 1, h =>
    List.mem_cons_of_mem a (getD_mem_of_lt as c (by simpa using h))

lemma fieldVal_eq_zero_or_mem (row : List Cell) (col : Option Nat) :
    fieldVal row col = 0 ∨ ∃ cell ∈ row, fieldVal row col = safe_numeric_convert cell := by
  cases col with
  | none => exact Or.inl rfl
  | some c =>
    by_cases h : c < row.length
    · exact Or.inr ⟨row.getD c Cell.empty, getD_mem_of_lt row c h, by simp [fieldVal, h]⟩
    · exact Or.inl (by simp [fieldVal, h])

lemma fieldVal_nonneg (row : List Cell) (col : Option Nat)
    (h : ∀ cell ∈ row, 0 ≤ safe_numeric_convert cell) : 0 ≤ fieldVal row col := by
  rcases fieldVal_eq_zero_or_mem row col with h0 | ⟨cell, hc, he⟩
  · rw [h0]
  · rw [he]; exact h cell hc

@[simp] lemma buildRecord_date (hs : HeaderState) (d reg st sec : String) (row : List Cell) :
    (buildRecord hs d reg st sec row).date = d := rfl

@[simp] lemma buildRecord_region (hs : HeaderState) (d reg st sec : String) (row : List Cell) :
    (buildRecord hs d reg st sec row).region = reg := rfl

@[simp] lemma buildRecord_state (hs : HeaderState) (d reg st sec : String) (row : List Cell) :
    (buildRecord hs d reg st sec row).state = st := rfl

@[simp] lemma buildRecord_coal (hs : HeaderState) (d reg st sec : String) (row : List Cell) :
    (buildRecord hs d reg st sec row).coal = fieldVal row hs.coal_col := rfl

@[simp] lemma buildRecord_lignite (hs : HeaderState) (d reg st sec : String) (row : List Cell) :
    (buildRecord hs d reg st sec row).lignite = fieldVal row hs.lignite_col := rfl

@[simp] lemma buildRecord_gas (hs : HeaderState) (d reg st sec : String) (row : List Cell) :
    (buildRecord hs d reg st sec row).gas = fieldVal row hs.gas_col := rfl

@[simp] lemma buildRecord_diesel (hs : HeaderState) (d reg st sec : String) (row : List Cell) :
    (buildRecord hs d reg st sec row).diesel = fieldVal row hs.diesel_col := rfl

@[simp] lemma buildRecord_nuclear (hs : HeaderState) (d reg st sec : String) (row : List Cell) :
    (buildRecord hs d reg st sec row).nuclear = fieldVal row hs.nuclear_col := rfl

@[simp] lemma buildRecord_hydro (hs : HeaderState) (d reg st sec : String) (row : List Cell) :
    (buildRecord hs d reg st sec row).hydro = fieldVal row hs.hydro_col := rfl

@[simp] lemma buildRecord_res (hs : HeaderState) (d reg st sec : String) (row : List Cell) :
    (buildRecord hs d reg st sec row).res = fieldVal row hs.res_col := rfl

lemma buildRecord_thermal (hs : HeaderState) (d reg st sec : String) (row : List Cell) :
    (buildRecord hs d reg st sec row).thermal_total =
      (buildRecord hs d reg st sec row).coal + (buildRecord hs d reg st sec row).lignite
        + (buildRecord hs d reg st sec row).gas + (buildRecord hs d reg st sec row).diesel := rfl

lemma buildRecord_total (hs : HeaderState) (d reg st sec : String) (row : List Cell) :
    (buildRecord hs d reg st sec row).total =
      if fieldVal row hs.total_col = 0 then
        (buildRecord hs d reg st sec row).thermal_total
          + (buildRecord hs d reg st sec row).nuclear
          + (buildRecord hs d reg st sec row).hydro
          + (buildRecord hs d reg st sec row).res
      else fieldVal row hs.total_col := rfl

lemma stepRow_snd (hs : HeaderState) (secc : Nat) (d reg : String) (cs : Option String)
    (row : List Cell) :
    (stepRow hs secc d reg cs row).2 = none ∨
      ∃ st sec, (stepRow hs secc d reg cs row).2 = some (buildRecord hs d reg st sec row) := by
  unfold stepRow
  dsimp only
  split_ifs <;> simp <;> exact ⟨_, _, rfl⟩

lemma runRows_mem (hs : HeaderState) (secc : Nat) (d reg : String)
    (P : CapacityRecord → Prop) :
    ∀ (rows : List (List Cell)) (cs : Option String)
      (out : Option String × List CapacityRecord),
      (∀ st sec row, row ∈ rows → P (buildRecord hs d reg st sec row)) →
      runRows hs secc d reg cs rows = some out → ∀ r ∈ out.2, P r := by
  intro rows
  induction rows with
  | nil =>
    intro cs out _ h r hr
    simp only [runRows, Option.some.injEq] at h
    rw [← h] at hr
    simp at hr
  | cons row rest ih =>
    intro cs out hP h r hr
    rw [runRows] at h
    split at h
    · split at h
      · exact absurd h (by simp)
      · rename_i o ho
        injection h with h
        subst h
        rcases stepRow_snd hs secc d reg cs row with hsnd | ⟨st, sec, hsnd⟩
        · rw [hsnd] at hr
          exact ih _ o (fun st sec row hrow => hP st sec row (List.mem_cons_of_mem _ hrow)) ho r
            (by simpa using hr)
        · rw [hsnd] at hr
          have hr2 : r ∈ buildRecord hs d reg st sec row :: o.2 := by simpa using hr
          rcases List.mem_cons.mp hr2 with h1 | h1
          · rw [h1]; exact hP st sec row (List.mem_cons_self _ _)
          · exact ih _ o (fun st sec row hrow => hP st sec row (List.mem_cons_of_mem _ hrow)) ho r h1
    · exact absurd h (by simp)

lemma process_excel_file_mem (grid : List (List Cell)) (d reg : String)
    (P : CapacityRecord → Prop)
    (hP : ∀ st sec row, row ∈ grid → P (buildRecord (headerScan grid) d reg st sec row)) :
    ∀ r ∈ process_excel_file grid d reg, P r := by
  intro r hr
  rw [process_excel_file] at hr
  split at hr
  · simp at hr
  · rename_i out ho
    have hr2 : r ∈ out.2 := (List.mem_filter.mp hr).1
    exact runRows_mem (headerScan grid) (sectorColOf (headerScan grid)) d reg P
      (grid.drop (dataStartRow (headerScan grid))) none out
      (fun st sec row hrow => hP st sec row (List.drop_subset _ _ hrow)) ho r hr2

lemma process_excel_file_state_ne_region (grid : List (List Cell)) (d reg : String) :
    ∀ r ∈ process_excel_file grid d reg, r.state ≠ r.region := by
  intro r hr
  rw [process_excel_file] at hr
  split at hr
  · simp at hr
  · have := (List.mem_filter.mp hr).2
    simpa using this

lemma process_excel_file_region (grid : List (List Cell)) (d reg : String) :
    ∀ r ∈ process_excel_file grid d reg, r.region = reg :=
  process_excel_file_mem grid d reg (fun r => r.region = reg)
    (fun _ _ _ _ => rfl)

lemma mem_allIndiaRows (monthly : List CapacityRecord) :
    ∀ r ∈ allIndiaRows monthly, r.state = "ALL INDIA" ∧ r.region = "All India" := by
  intro r hr
  rw [allIndiaRows] at hr
  rcases List.mem_append.mp hr with h | h
  · rcases List.mem_map.mp h with ⟨s, _, hs⟩
    rw [← hs]
    exact ⟨rfl, rfl⟩
  · rcases List.mem_singleton.mp h with rfl
    exact ⟨rfl, rfl⟩

lemma mem_monthlyRecords (d : String) (inputs : List RegionInput) :
    ∀ r ∈ monthlyRecords d inputs,
      ∃ reg ∈ regionNamesList, ∃ inp ∈ inputs, r ∈ process_excel_file inp.grid d reg := by
  intro r hr
  rw [monthlyRecords] at hr
  rcases List.mem_flatten.mp hr with ⟨l, hl, hrl⟩
  rcases List.mem_map.mp hl with ⟨p, hp, hpl⟩
  have hz : p ∈ regionNamesList.zip inputs := (List.mem_filter.mp hp).1
  have hmem : p.1 ∈ regionNamesList ∧ p.2 ∈ inputs := by
    rcases p with ⟨a, b⟩
    exact List.of_mem_zip hz
  rw [← hpl] at hrl
  exact ⟨p.1, hmem.1, p.2, hmem.2, hrl⟩

lemma rnd2_intCast_div (m : Int) : rnd2 ((m : ℚ) / 100) = (m : ℚ) / 100 := by
  have hx : (m : ℚ) / 100 * 100 = (m : ℚ) := by field_simp
  simp only [rnd2, hx, Int.floor_intCast]
  norm_num

lemma isCenti_iff (q : ℚ) : isCenti q ↔ ∃ m : Int, q = (m : ℚ) / 100 := by
  constructor
  · intro h
    refine ⟨(q * 100).num, ?_⟩
    have hm : ((q * 100).num : ℚ) = q * 100 := Rat.den_eq_one_iff (q * 100) |>.mp h
    rw [hm]
    ring
  · rintro ⟨m, rfl⟩
    unfold isCenti
    have hx : (m : ℚ) / 100 * 100 = (m : ℚ) := by field_simp
    rw [hx, Rat.den_intCast]

lemma rnd2_eq_self (q : ℚ) (h : isCenti q) : rnd2 q = q := by
  obtain ⟨m, rfl⟩ := (isCenti_iff q).mp h
  exact rnd2_intCast_div m

lemma rnd2_nonneg (q : ℚ) (h : 0 ≤ q) : 0 ≤ rnd2 q := by
  have hf : (0 : Int) ≤ ⌊q * 100⌋ := Int.floor_nonneg.mpr (by positivity)
  simp only [rnd2]
  split_ifs <;>
    refine div_nonneg ?_ (by norm_num) <;>
    exact_mod_cast (by omega : (0 : Int) ≤ _)

lemma isCenti_zero : isCenti 0 := by
  rw [isCenti_iff]
  exact ⟨0, by norm_num⟩

lemma isCenti_add (a b : ℚ) (ha : isCenti a) (hb : isCenti b) : isCenti (a + b) := by
  obtain ⟨m, rfl⟩ := (isCenti_iff a).mp ha
  obtain ⟨n, rfl⟩ := (isCenti_iff b).mp hb
  rw [isCenti_iff]
  exact ⟨m + n, by push_cast; ring⟩

lemma isCenti_sum (l : List ℚ) (h : ∀ x ∈ l, isCenti x) : isCenti l.sum := by
  induction l with
  | nil => simpa using isCenti_zero
  | cons a t ih =>
    rw [List.sum_cons]
    exact isCenti_add a t.sum (h a (List.mem_cons_self a t))
      (ih (fun x hx => h x (List.mem_cons_of_mem a hx)))

lemma map_sum_split4 {α : Type} (l : List α) (f g1 g2 g3 g4 : α → ℚ)
    (h : ∀ x ∈ l, f x = g1 x + g2 x + g3 x + g4 x) :
    (l.map f).sum = (l.map g1).sum + (l.map g2).sum + (l.map g3).sum + (l.map g4).sum := by
  induction l with
  | nil => simp
  | cons a t ih =>
    simp only [List.map_cons, List.sum_cons]
    rw [h a (List.mem_cons_self a t), ih (fun x hx => h x (List.mem_cons_of_mem a hx))]
    ring

/-- The state-column label test, lifted to a scanned cell (false on `NaN`). -/
def stateCellB (t : Nat × Nat × Cell) : Bool :=
  match cellHdrStr t.2.2 with
  | none => false
  | some raw => isStateLabel (pyStrip (pyUpper raw))

/-- The sector-column label test, lifted to a scanned cell. -/
def sectorCellB (t : Nat × Nat × Cell) : Bool :=
  match cellHdrStr t.2.2 with
  | none => false
  | some raw => isSectorLabel (pyStrip (pyUpper raw))

/-- The coal-column label test, lifted to a scanned cell. -/
def coalCellB (t : Nat × Nat × Cell) : Bool :=
  match cellHdrStr t.2.2 with
  | none => false
  | some raw => isCoalLabel (pyStrip (pyUpper raw))

/-- The grand-total-column label test, lifted to a scanned cell (it also looks
at the column index). -/
def totalCellB (t : Nat × Nat × Cell) : Bool :=
  match cellHdrStr t.2.2 with
  | none => false
  | some raw => isTotalLabel t.2.1 (pyStrip (pyUpper raw))

@[simp] lemma updSectorCol_state_col (i c : Nat) (s : String) (st : HeaderState) :
    (updSectorCol i c s st).state_col = st.state_col := by
  unfold updSectorCol addHR; split_ifs <;> rfl

@[simp] lemma updCoalCol_state_col (i c : Nat) (s : String) (st : HeaderState) :
    (updCoalCol i c s st).state_col = st.state_col := by
  unfold updCoalCol addHR; split_ifs <;> rfl

@[simp] lemma updLigniteCol_state_col (i c : Nat) (s : String) (st : HeaderState) :
    (updLigniteCol i c s st).state_col = st.state_col := by
  unfold updLigniteCol addHR; split_ifs <;> rfl

@[simp] lemma updGasCol_state_col (i c : Nat) (s : String) (st : HeaderState) :
    (updGasCol i c s st).state_col = st.state_col := by
  unfold updGasCol addHR; split_ifs <;> rfl

@[simp] lemma updDieselCol_state_col (i c : Nat) (s : String) (st : HeaderState) :
    (updDieselCol i c s st).state_col = st.state_col := by
  unfold updDieselCol addHR; split_ifs <;> rfl

@[simp] lemma updNuclearCol_state_col (i c : Nat) (s : String) (st : HeaderState) :
    (updNuclearCol i c s st).state_col = st.state_col := by
  unfold updNuclearCol addHR; split_ifs <;> rfl

@[simp] lemma updHydroCol_state_col (i c : Nat) (s : String) (st : HeaderState) :
    (updHydroCol i c s st).state_col = st.state_col := by
  unfold updHydroCol addHR; split_ifs <;> rfl

@[simp] lemma updResCol_state_col (i c : Nat) (s : String) (st : HeaderState) :
    (updResCol i c s st).state_col = st.state_col := by
  unfold updResCol addHR; split_ifs <;> rfl

@[simp] lemma updTotalCol_state_col (i c : Nat) (s : String) (st : HeaderState) :
    (updTotalCol i c s st).state_col = st.state_col := by
  unfold updTotalCol addHR; split_ifs <;> rfl

@[simp] lemma updStateCol_sector_col (i c : Nat) (s : String) (st : HeaderState) :
    (updStateCol i c s st).sector_col = st.sector_col := by
  unfold updStateCol addHR; split_ifs <;> rfl

@[simp] lemma updCoalCol_sector_col (i c : Nat) (s : String) (st : HeaderState) :
    (updCoalCol i c s st).sector_col = st.sector_col := by
  unfold updCoalCol addHR; split_ifs <;> rfl

@[simp] lemma updLigniteCol_sector_col (i c : Nat) (s : String) (st : HeaderState) :
    (updLigniteCol i c s st).sector_col = st.sector_col := by
  unfold updLigniteCol addHR; split_ifs <;> rfl

@[simp] lemma updGasCol_sector_col (i c : Nat) (s : String) (st : HeaderState) :
    (updGasCol i c s st).sector_col = st.sector_col := by
  unfold updGasCol addHR; split_ifs <;> rfl

@[simp] lemma updDieselCol_sector_col (i c : Nat) (s : String) (st : HeaderState) :
    (updDieselCol i c s st).sector_col = st.sector_col := by
  unfold updDieselCol addHR; split_ifs <;> rfl

@[simp] lemma updNuclearCol_sector_col (i c : Nat) (s : String) (st : HeaderState) :
    (updNuclearCol i c s st).sector_col = st.sector_col := by
  unfold updNuclearCol addHR; split_ifs <;> rfl

@[simp] lemma updHydroCol_sector_col (i c : Nat) (s : String) (st : HeaderState) :
    (updHydroCol i c s st).sector_col = st.sector_col := by
  unfold updHydroCol addHR; split_ifs <;> rfl

@[simp] lemma updResCol_sector_col (i c : Nat) (s : String) (st : HeaderState) :
    (updResCol i c s st).sector_col = st.sector_col := by
  unfold updResCol addHR; split_ifs <;> rfl

@[simp] lemma updTotalCol_sector_col (i c : Nat) (s : String) (st : HeaderState) :
    (updTotalCol i c s st).sector_col = st.sector_col := by
  unfold updTotalCol addHR; split_ifs <;> rfl

@[simp] lemma updStateCol_coal_col (i c : Nat) (s : String) (st : HeaderState) :
    (updStateCol i c s st).coal_col = st.coal_col := by
  unfold updStateCol addHR; split_ifs <;> rfl

@[simp] lemma updSectorCol_coal_col (i c : Nat) (s : String) (st : HeaderState) :
    (updSectorCol i c s st).coal_col = st.coal_col := by
  unfold updSectorCol addHR; split_ifs <;> rfl

@[simp] lemma updLigniteCol_coal_col (i c : Nat) (s : String) (st : HeaderState) :
    (updLigniteCol i c s st).coal_col = st.coal_col := by
  unfold updLigniteCol addHR; split_ifs <;> rfl

@[simp] lemma updGasCol_coal_col (i c : Nat) (s : String) (st : HeaderState) :
    (updGasCol i c s st).coal_col = st.coal_col := by
  unfold updGasCol addHR; split_ifs <;> rfl

@[simp] lemma updDieselCol_coal_col (i c : Nat) (s : String) (st : HeaderState) :
    (updDieselCol i c s st).coal_col = st.coal_col := by
  unfold updDieselCol addHR; split_ifs <;> rfl

@[simp] lemma updNuclearCol_coal_col (i c : Nat) (s : String) (st : HeaderState) :
    (updNuclearCol i c s st).coal_col = st.coal_col := by
  unfold updNuclearCol addHR; split_ifs <;> rfl

@[simp] lemma updHydroCol_coal_col (i c : Nat) (s : String) (st : HeaderState) :
    (updHydroCol i c s st).coal_col = st.coal_col := by
  unfold updHydroCol addHR; split_ifs <;> rfl

@[simp] lemma updResCol_coal_col (i c : Nat) (s : String) (st : HeaderState) :
    (updResCol i c s st).coal_col = st.coal_col := by
  unfold updResCol addHR; split_ifs <;> rfl

@[simp] lemma updTotalCol_coal_col (i c : Nat) (s : String) (st : HeaderState) :
    (updTotalCol i c s st).coal_col = st.coal_col := by
  unfold updTotalCol addHR; split_ifs <;> rfl

@[simp] lemma updStateCol_total_col (i c : Nat) (s : String) (st : HeaderState) :
    (updStateCol i c s st).total_col = st.total_col := by
  unfold updStateCol addHR; split_ifs <;> rfl

@[simp] lemma updSectorCol_total_col (i c : Nat) (s : String) (st : HeaderState) :
    (updSectorCol i c s st).total_col = st.total_col := by
  unfold updSectorCol addHR; split_ifs <;> rfl

@[simp] lemma updCoalCol_total_col (i c : Nat) (s : String) (st : HeaderState) :
    (updCoalCol i c s st).total_col = st.total_col := by
  unfold updCoalCol addHR; split_ifs <;> rfl

@[simp] lemma updLigniteCol_total_col (i c : Nat) (s : String) (st : HeaderState) :
    (updLigniteCol i c s st).total_col = st.total_col := by
  unfold updLigniteCol addHR; split_ifs <;> rfl

@[simp] lemma updGasCol_total_col (i c : Nat) (s : String) (st : HeaderState) :
    (updGasCol i c s st).total_col = st.total_col := by
  unfold updGasCol addHR; split_ifs <;> rfl

@[simp] lemma updDieselCol_total_col (i c : Nat) (s : String) (st : HeaderState) :
    (updDieselCol i c s st).total_col = st.total_col := by
  unfold updDieselCol addHR; split_ifs <;> rfl

@[simp] lemma updNuclearCol_total_col (i c : Nat) (s : String) (st : HeaderState) :
    (updNuclearCol i c s st).total_col = st.total_col := by
  unfold updNuclearCol addHR; split_ifs <;> rfl

@[simp] lemma updHydroCol_total_col (i c : Nat) (s : String) (st : HeaderState) :
    (updHydroCol i c s st).total_col = st.total_col := by
  unfold updHydroCol addHR; split_ifs <;> rfl

@[simp] lemma updResCol_total_col (i c : Nat) (s : String) (st : HeaderState) :
    (updResCol i c s st).total_col = st.total_col := by
  unfold updResCol addHR; split_ifs <;> rfl

@[simp] lemma updStateCol_state_col (i c : Nat) (s : String) (st : HeaderState) :
    (updStateCol i c s st).state_col = if isStateLabel s then c else st.state_col := by
  unfold updStateCol addHR; split_ifs <;> rfl

@[simp] lemma updSectorCol_sector_col (i c : Nat) (s : String) (st : HeaderState) :
    (updSectorCol i c s st).sector_col = if isSectorLabel s then some c else st.sector_col := by
  unfold updSectorCol addHR; split_ifs <;> rfl

@[simp] lemma updCoalCol_coal_col (i c : Nat) (s : String) (st : HeaderState) :
    (updCoalCol i c s st).coal_col =
      if isCoalLabel s then (if st.coal_col.isNone then some c else st.coal_col)
      else st.coal_col := by
  unfold updCoalCol addHR; split_ifs <;> rfl

@[simp] lemma updTotalCol_total_col (i c : Nat) (s : String) (st : HeaderState) :
    (updTotalCol i c s st).total_col =
      if isTotalLabel c s then (if st.total_col.isNone then some c else st.total_col)
      else st.total_col := by
  unfold updTotalCol addHR; split_ifs <;> rfl

lemma apply_state_col (i c : Nat) (cell : Cell) (st : HeaderState) :
    (applyHeaderCell i c cell st).state_col =
      if stateCellB (i, c, cell) then c else st.state_col := by
  cases cell <;> simp [applyHeaderCell, cellHdrStr, stateCellB]

lemma apply_sector_col (i c : Nat) (cell : Cell) (st : HeaderState) :
    (applyHeaderCell i c cell st).sector_col =
      if sectorCellB (i, c, cell) then some c else st.sector_col := by
  cases cell <;> simp [applyHeaderCell, cellHdrStr, sectorCellB]

lemma apply_coal_col (i c : Nat) (cell : Cell) (st : HeaderState) :
    (applyHeaderCell i c cell st).coal_col =
      if coalCellB (i, c, cell) then (if st.coal_col.isNone then some c else st.coal_col)
      else st.coal_col := by
  cases cell <;> simp [applyHeaderCell, cellHdrStr, coalCellB]

lemma apply_total_col (i c : Nat) (cell : Cell) (st : HeaderState) :
    (applyHeaderCell i c cell st).total_col =
      if totalCellB (i, c, cell) then (if st.total_col.isNone then some c else st.total_col)
      else st.total_col := by
  cases cell <;> simp [applyHeaderCell, cellHdrStr, totalCellB]

lemma headerFold_cons (a : Nat × Nat × Cell) (t : List (Nat × Nat × Cell)) (st : HeaderState) :
    headerFold (a :: t) st = headerFold t (applyHeaderCell a.1 a.2.1 a.2.2 st) := rfl

lemma headerFold_state_col (l : List (Nat × Nat × Cell)) :
    ∀ st : HeaderState, (headerFold l st).state_col =
      ((l.reverse.find? stateCellB).map (fun t => t.2.1)).getD st.state_col := by
  induction l with
  | nil => intro st; rfl
  | cons a t ih =>
    obtain ⟨ai, ac, acell⟩ := a
    intro st
    rw [headerFold_cons, ih, List.reverse_cons, List.find?_append]
    cases h : t.reverse.find? stateCellB with
    | some b => simp [h]
    | none =>
      rw [apply_state_col]
      cases hb : stateCellB (ai, ac, acell) <;> simp [h, hb]

lemma headerFold_sector_col (l : List (Nat × Nat × Cell)) :
    ∀ st : HeaderState, (headerFold l st).sector_col =
      match l.reverse.find? sectorCellB with
      | some b => some b.2.1
      | none => st.sector_col := by
  induction l with
  | nil => intro st; rfl
  | cons a t ih =>
    obtain ⟨ai, ac, acell⟩ := a
    intro st
    rw [headerFold_cons, ih, List.reverse_cons, List.find?_append]
    cases h : t.reverse.find? sectorCellB with
    | some b => simp [h]
    | none =>
      rw [apply_sector_col]
      cases hb : sectorCellB (ai, ac, acell) <;> simp [h, hb]

lemma headerFold_coal_col (l : List (Nat × Nat × Cell)) :
    ∀ st : HeaderState, (headerFold l st).coal_col =
      match st.coal_col with
      | some c => some c
      | none => (l.find? coalCellB).map (fun t => t.2.1) := by
  induction l with
  | nil =>
    intro st
    cases h : st.coal_col <;> simp [headerFold, h]
  | cons a t ih =>
    obtain ⟨ai, ac, acell⟩ := a
    intro st
    rw [headerFold_cons, ih, apply_coal_col]
    cases h : st.coal_col with
    | some c => simp [h]
    | none =>
      cases hb : coalCellB (ai, ac, acell) <;> simp [h, hb]

lemma headerFold_total_col (l : List (Nat × Nat × Cell)) :
    ∀ st : HeaderState, (headerFold l st).total_col =
      match st.total_col with
      | some c => some c
      | none => (l.find? totalCellB).map (fun t => t.2.1) := by
  induction l with
  | nil =>
    intro st
    cases h : st.total_col <;> simp [headerFold, h]
  | cons a t ih =>
    obtain ⟨ai, ac, acell⟩ := a
    intro st
    rw [headerFold_cons, ih, apply_total_col]
    cases h : st.total_col with
    | some c => simp [h]
    | none =>
      cases hb : totalCellB (ai, ac, acell) <;> simp [h, hb]

instance isCenti_decidable (q : ℚ) : Decidable (isCenti q) :=
  inferInstanceAs (Decidable ((q * 100).den = 1))

/-- All nine numeric fields of a record are non-negative. -/
def recNonneg (r : CapacityRecord) : Prop :=
  0 ≤ r.coal ∧ 0 ≤ r.lignite ∧ 0 ≤ r.gas ∧ 0 ≤ r.diesel ∧ 0 ≤ r.thermal_total
    ∧ 0 ≤ r.nuclear ∧ 0 ≤ r.hydro ∧ 0 ≤ r.res ∧ 0 ≤ r.total

instance recNonneg_decidable (r : CapacityRecord) : Decidable (recNonneg r) :=
  inferInstanceAs (Decidable (_ ∧ _))

lemma buildRecord_nonneg (hs : HeaderState) (d reg st sec : String) (row : List Cell)
    (h : ∀ cell ∈ row, 0 ≤ safe_numeric_convert cell) :
    recNonneg (buildRecord hs d reg st sec row) := by
  have hc := fieldVal_nonneg row hs.coal_col h
  have hl := fieldVal_nonneg row hs.lignite_col h
  have hg := fieldVal_nonneg row hs.gas_col h
  have hdzl := fieldVal_nonneg row hs.diesel_col h
  have hn := fieldVal_nonneg row hs.nuclear_col h
  have hh := fieldVal_nonneg row hs.hydro_col h
  have hre := fieldVal_nonneg row hs.res_col h
  have hgt := fieldVal_nonneg row hs.total_col h
  have hth : 0 ≤ (buildRecord hs d reg st sec row).thermal_total := by
    rw [buildRecord_thermal]
    simp only [buildRecord_coal, buildRecord_lignite, buildRecord_gas, buildRecord_diesel]
    positivity
  refine ⟨by simpa using hc, by simpa using hl, by simpa using hg, by simpa using hdzl,
    hth, by simpa using hn, by simpa using hh, by simpa using hre, ?_⟩
  rw [buildRecord_total]
  split_ifs
  · simp only [buildRecord_nuclear, buildRecord_hydro, buildRecord_res]
    positivity
  · exact hgt

lemma sumField_nonneg (g : List CapacityRecord) (f : CapacityRecord → ℚ)
    (h : ∀ r ∈ g, 0 ≤ f r) : 0 ≤ sumField g f := by
  apply List.sum_nonneg
  intro x hx
  obtain ⟨r, hr, rfl⟩ := List.mem_map.mp hx
  exact h r hr

lemma aggRow_nonneg (d0 : String) (monthly : List CapacityRecord) (s : String)
    (h : ∀ r ∈ monthly, recNonneg r) : recNonneg (aggRow d0 monthly s) := by
  have hsub : ∀ r ∈ monthly.filter (fun r => r.sector == s), recNonneg r :=
    fun r hr => h r (List.mem_filter.mp hr).1
  refine ⟨?_, ?_, ?_, ?_, ?_, ?_, ?_, ?_, ?_⟩ <;>
    exact rnd2_nonneg _ (sumField_nonneg _ _ (fun r hr => by
      have := hsub r hr
      unfold recNonneg at this
      tauto))

lemma allIndiaRows_nonneg (monthly : List CapacityRecord)
    (h : ∀ r ∈ monthly, recNonneg r) :
    ∀ r ∈ allIndiaRows monthly, recNonneg r := by
  have hagg : ∀ (d0 s : String), recNonneg (aggRow d0 monthly s) :=
    fun d0 s => aggRow_nonneg d0 monthly s h
  intro r hr
  simp only [allIndiaRows] at hr
  rcases List.mem_append.mp hr with hm | hm
  · obtain ⟨s, _, rfl⟩ := List.mem_map.mp hm
    exact hagg _ s
  · rcases List.mem_singleton.mp hm with rfl
    refine ⟨?_, ?_, ?_, ?_, ?_, ?_, ?_, ?_, ?_⟩ <;>
      exact List.sum_nonneg (fun x hx => by
        obtain ⟨s, _, rfl⟩ := List.mem_map.mp hx
        have h2 := hagg (match monthly.head? with
          | some r => r.date
          | none => "") s
        unfold recNonneg at h2
        tauto)

lemma monthlyRecords_nonneg (d : String) (inputs : List RegionInput)
    (h : ∀ inp ∈ inputs, ∀ row ∈ inp.grid, ∀ cell ∈ row, 0 ≤ safe_numeric_convert cell) :
    ∀ r ∈ monthlyRecords d inputs, recNonneg r := by
  intro r hr
  obtain ⟨reg, _, inp, hinp, hrg⟩ := mem_monthlyRecords d inputs r hr
  exact process_excel_file_mem inp.grid d reg recNonneg
    (fun st sec row hrow => buildRecord_nonneg _ d reg st sec row (h inp hinp row hrow)) r hrg

lemma process_excel_file_thermal (grid : List (List Cell)) (d reg : String) :
    ∀ r ∈ process_excel_file grid d reg,
      r.thermal_total = r.coal + r.lignite + r.gas + r.diesel :=
  process_excel_file_mem grid d reg _
    (fun st sec row _ => buildRecord_thermal (headerScan grid) d reg st sec row)

lemma monthlyRecords_thermal (d : String) (inputs : List RegionInput) :
    ∀ r ∈ monthlyRecords d inputs,
      r.thermal_total = r.coal + r.lignite + r.gas + r.diesel := by
  intro r hr
  obtain ⟨reg, _, inp, _, hrg⟩ := mem_monthlyRecords d inputs r hr
  exact process_excel_file_thermal inp.grid d reg r hrg

lemma aggRow_thermal (d0 : String) (monthly : List CapacityRecord) (s : String)
    (hT : ∀ r ∈ monthly, r.thermal_total = r.coal + r.lignite + r.gas + r.diesel)
    (hC : ∀ r ∈ monthly, isCenti r.coal ∧ isCenti r.lignite ∧ isCenti r.gas ∧ isCenti r.diesel) :
    (aggRow d0 monthly s).thermal_total =
      (aggRow d0 monthly s).coal + (aggRow d0 monthly s).lignite
        + (aggRow d0 monthly s).gas + (aggRow d0 monthly s).diesel := by
  have hsub : ∀ r ∈ monthly.filter (fun r => r.sector == s), r ∈ monthly :=
    fun r hr => (List.mem_filter.mp hr).1
  have hcoal : isCenti (sumField (monthly.filter (fun r => r.sector == s)) (fun r => r.coal)) :=
    isCenti_sum _ (fun x hx => by
      obtain ⟨r, hr, rfl⟩ := List.mem_map.mp hx
      exact (hC r (hsub r hr)).1)
  have hlig : isCenti (sumField (monthly.filter (fun r => r.sector == s)) (fun r => r.lignite)) :=
    isCenti_sum _ (fun x hx => by
      obtain ⟨r, hr, rfl⟩ := List.mem_map.mp hx
      exact (hC r (hsub r hr)).2.1)
  have hgas : isCenti (sumField (monthly.filter (fun r => r.sector == s)) (fun r => r.gas)) :=
    isCenti_sum _ (fun x hx => by
      obtain ⟨r, hr, rfl⟩ := List.mem_map.mp hx
      exact (hC r (hsub r hr)).2.2.1)
  have hdie : isCenti (sumField (monthly.filter (fun r => r.sector == s)) (fun r => r.diesel)) :=
    isCenti_sum _ (fun x hx => by
      obtain ⟨r, hr, rfl⟩ := List.mem_map.mp hx
      exact (hC r (hsub r hr)).2.2.2)
  have hth : sumField (monthly.filter (fun r => r.sector == s)) (fun r => r.thermal_total) =
      sumField (monthly.filter (fun r => r.sector == s)) (fun r => r.coal)
        + sumField (monthly.filter (fun r => r.sector == s)) (fun r => r.lignite)
        + sumField (monthly.filter (fun r => r.sector == s)) (fun r => r.gas)
        + sumField (monthly.filter (fun r => r.sector == s)) (fun r => r.diesel) :=
    map_sum_split4 _ _ _ _ _ _ (fun r hr => hT r (hsub r hr))
  show rnd2 (sumField (monthly.filter (fun r => r.sector == s)) (fun r => r.thermal_total)) = _
  rw [hth,
    rnd2_eq_self _ (isCenti_add _ _ (isCenti_add _ _ (isCenti_add _ _ hcoal hlig) hgas) hdie)]
  show _ = rnd2 (sumField (monthly.filter (fun r => r.sector == s)) (fun r => r.coal))
    + rnd2 (sumField (monthly.filter (fun r => r.sector == s)) (fun r => r.lignite))
    + rnd2 (sumField (monthly.filter (fun r => r.sector == s)) (fun r => r.gas))
    + rnd2 (sumField (monthly.filter (fun r => r.sector == s)) (fun r => r.diesel))
  rw [rnd2_eq_self _ hcoal, rnd2_eq_self _ hlig, rnd2_eq_self _ hgas, rnd2_eq_self _ hdie]

lemma allIndiaRows_thermal (monthly : List CapacityRecord)
    (hT : ∀ r ∈ monthly, r.thermal_total = r.coal + r.lignite + r.gas + r.diesel)
    (hC : ∀ r ∈ monthly, isCenti r.coal ∧ isCenti r.lignite ∧ isCenti r.gas ∧ isCenti r.diesel) :
    ∀ r ∈ allIndiaRows monthly,
      r.thermal_total = r.coal + r.lignite + r.gas + r.diesel := by
  have hagg : ∀ (d0 s : String), (aggRow d0 monthly s).thermal_total =
      (aggRow d0 monthly s).coal + (aggRow d0 monthly s).lignite
        + (aggRow d0 monthly s).gas + (aggRow d0 monthly s).diesel :=
    fun d0 s => aggRow_thermal d0 monthly s hT hC
  intro r hr
  simp only [allIndiaRows] at hr
  rcases List.mem_append.mp hr with hm | hm
  · obtain ⟨s, _, rfl⟩ := List.mem_map.mp hm
    exact hagg _ s
  · rcases List.mem_singleton.mp hm with rfl
    exact map_sum_split4 _ _ _ _ _ _ (fun s _ => hagg (match monthly.head? with
      | some r => r.date
      | none => "") s)

lemma allIndiaRows_any_allIndia (monthly : List CapacityRecord) :
    (allIndiaRows monthly).any (fun r => r.region == "All India") = true := by
  rw [List.any_eq_true]
  simp only [allIndiaRows]
  exact ⟨_, List.mem_append_right _ (List.mem_singleton.mpr rfl), rfl⟩

lemma monthlyRecords_region (d : String) (inputs : List RegionInput) :
    ∀ r ∈ monthlyRecords d inputs, r.region ∈ regionNamesList := by
  intro r hr
  obtain ⟨reg, hreg, inp, _, hrg⟩ := mem_monthlyRecords d inputs r hr
  rw [process_excel_file_region inp.grid d reg r hrg]
  exact hreg

lemma monthlyRecords_no_allIndia (d : String) (inputs : List RegionInput) :
    (monthlyRecords d inputs).any (fun r => r.region == "All India") = false := by
  rw [List.any_eq_false]
  intro r hr
  have h := monthlyRecords_region d inputs r hr
  simp only [beq_iff_eq]
  intro hcontra
  rw [hcontra] at h
  exact absurd h (by decide)

/-- The record extracted from `gridA`: the single State-sector row of
`TestState`, with coal and lignite 0.004 each. -/
def recA : CapacityRecord :=
  { date := "31-01-2024", region := "Northern", state := "TestState", sector := "State",
    coal := 1/250, lignite := 1/250, gas := 0, diesel := 0, thermal_total := 1/125,
    nuclear := 0, hydro := 0, res := 0, total := 1/125 }

/-- C1 (amended): the All India roll-up rows appear in a month's output exactly
when at least 3 of the 5 region downloads succeeded and at least one record
was extracted over all downloaded regions.  (The source gates on successful
downloads, not on regions that yielded data.) -/
theorem C1_all_india_gate (d : String) (inputs : List RegionInput) :
    (process_month_data true d inputs).any (fun r => r.region == "All India") = true
      ↔ 3 ≤ successfulDownloads inputs ∧ monthlyRecords d inputs ≠ [] := by
  have hd : process_month_data true d inputs =
      if !(monthlyRecords d inputs).isEmpty && 3 ≤ successfulDownloads inputs then
        monthlyRecords d inputs ++ allIndiaRows (monthlyRecords d inputs)
      else monthlyRecords d inputs := rfl
  rw [hd]
  split
  · rename_i hgate
    rw [List.any_append, monthlyRecords_no_allIndia, allIndiaRows_any_allIndia]
    simp only [Bool.and_eq_true, Bool.not_eq_eq_eq_not, Bool.not_true,
      decide_eq_true_eq] at hgate
    refine ⟨fun _ => ⟨hgate.2, fun he => ?_⟩, fun _ => rfl⟩
    rw [he] at hgate
    simp at hgate
  · rename_i hgate
    rw [monthlyRecords_no_allIndia]
    constructor
    · intro h
      exact absurd h (by simp)
    · rintro ⟨h3, hne⟩
      exfalso
      apply hgate
      simp only [Bool.and_eq_true, Bool.not_eq_eq_eq_not, Bool.not_true, decide_eq_true_eq]
      refine ⟨?_, h3⟩
      cases he : (monthlyRecords d inputs).isEmpty
      · rfl
      · exact absurd (List.isEmpty_iff.mp he) hne

set_option maxRecDepth 40000 in
unseal Rat.add Rat.mul Rat.inv Rat.sub in
/-- C1 (counterexample): a month with three successful downloads of which only
one region yields any records — fewer than 3 regions yielded data, yet the
All India roll-up rows are emitted. -/
theorem C1_all_india_gate_cex :
    regionsYieldingData "31-01-2024" cexInputsA < 3
    ∧ (process_month_data true "31-01-2024" cexInputsA).any
        (fun r => r.region == "All India") = true := by decide

/-- C2 (amended): every per-region record has its Thermal Total recomputed as
exactly Coal + Lignite + Gas + Diesel; in the All India roll-up rows each
summed field is independently rounded to two decimals, so the identity holds
there whenever the per-region fuel values are exact multiples of 0.01 (as in
the real reports), but not in general. -/
theorem C2_thermal_recomputed :
    (∀ (grid : List (List Cell)) (d reg : String),
      ∀ r ∈ process_excel_file grid d reg,
        r.thermal_total = r.coal + r.lignite + r.gas + r.diesel)
    ∧ (∀ (avail : Bool) (d : String) (inputs : List RegionInput),
        (∀ r ∈ monthlyRecords d inputs,
          isCenti r.coal ∧ isCenti r.lignite ∧ isCenti r.gas ∧ isCenti r.diesel) →
        ∀ r ∈ process_month_data avail d inputs,
          r.thermal_total = r.coal + r.lignite + r.gas + r.diesel) := by
  constructor
  · exact process_excel_file_thermal
  · intro avail d inputs hC r hr
    rw [process_month_data] at hr
    split at hr
    · split at hr
      · rcases List.mem_append.mp hr with hm | hm
        · exact monthlyRecords_thermal d inputs r hm
        · exact allIndiaRows_thermal _ (monthlyRecords_thermal d inputs) hC r hm
      · exact monthlyRecords_thermal d inputs r hr
    · simp at hr

set_option maxRecDepth 40000 in
unseal Rat.add Rat.mul Rat.inv Rat.sub in
/-- C2 (counterexample): with coal and lignite cells of 0.004 in a single
record, the All India State row carries Thermal Total 0.01 while its rounded
Coal, Lignite, Gas and Diesel sum to 0 — the identity fails on a roll-up row
by 0.01, far beyond float tolerance. -/
theorem C2_thermal_recomputed_cex :
    (process_month_data true "31-01-2024" cexInputsA).any
      (fun r => !(r.thermal_total == r.coal + r.lignite + r.gas + r.diesel)) = true := by
  decide

set_option maxRecDepth 40000 in
unseal Rat.add Rat.mul Rat.inv Rat.sub in
/-- Witness for C2 on a month whose values are exact multiples of 0.01: every
output record, roll-up rows included, satisfies the thermal identity. -/
theorem C2_thermal_recomputed_witness :
    (process_month_data true "30-06-2025" inputsW).all
      (fun r => r.thermal_total == r.coal + r.lignite + r.gas + r.diesel) = true := by
  rw [List.all_eq_true]
  intro r hr
  exact beq_iff_eq.mpr (C2_thermal_recomputed.2 true "30-06-2025" inputsW (by decide) r hr)

/-- C3: the Total field of a record built from a data row is the converted
source grand-total cell when that value is nonzero, and otherwise the sum
Thermal Total + Nuclear + Hydro + RES. -/
theorem C3_grand_total (hs : HeaderState) (d reg st sec : String) (row : List Cell) :
    (fieldVal row hs.total_col ≠ 0 →
      (buildRecord hs d reg st sec row).total = fieldVal row hs.total_col)
    ∧ (fieldVal row hs.total_col = 0 →
      (buildRecord hs d reg st sec row).total =
        (buildRecord hs d reg st sec row).thermal_total
          + (buildRecord hs d reg st sec row).nuclear
          + (buildRecord hs d reg st sec row).hydro
          + (buildRecord hs d reg st sec row).res) := by
  constructor
  · intro h
    rw [buildRecord_total, if_neg h]
  · intro h
    rw [buildRecord_total, if_pos h]

set_option maxRecDepth 40000 in
unseal Rat.add Rat.mul Rat.inv Rat.sub in
/-- Witness for C3: a nonzero grand-total cell is taken as Total, and an
absent one falls back to the component sum. -/
theorem C3_grand_total_witness :
    (buildRecord { total_col := some 0 } "d" "r" "s" "STATE SECTOR" [Cell.num 5]).total = 5
    ∧ (buildRecord {} "d" "r" "s" "STATE SECTOR" [Cell.num 5]).total =
        (buildRecord {} "d" "r" "s" "STATE SECTOR" [Cell.num 5]).thermal_total
          + (buildRecord {} "d" "r" "s" "STATE SECTOR" [Cell.num 5]).nuclear
          + (buildRecord {} "d" "r" "s" "STATE SECTOR" [Cell.num 5]).hydro
          + (buildRecord {} "d" "r" "s" "STATE SECTOR" [Cell.num 5]).res := by
  constructor
  · exact ((C3_grand_total { total_col := some 0 } "d" "r" "s" "STATE SECTOR"
      [Cell.num 5]).1 (by decide)).trans (by decide)
  · exact (C3_grand_total {} "d" "r" "s" "STATE SECTOR" [Cell.num 5]).2 (by decide)

/-- C4: every record of a month's output — per-region records and All India
roll-up rows alike — has State different from Region. -/
theorem C4_state_ne_region (avail : Bool) (d : String) (inputs : List RegionInput) :
    ∀ r ∈ process_month_data avail d inputs, r.state ≠ r.region := by
  intro r hr
  rw [process_month_data] at hr
  split at hr
  · split at hr
    · rcases List.mem_append.mp hr with hm | hm
      · obtain ⟨reg, _, inp, _, hrg⟩ := mem_monthlyRecords d inputs r hm
        exact process_excel_file_state_ne_region inp.grid d reg r hrg
      · have h := mem_allIndiaRows _ r hm
        rw [h.1, h.2]
        decide
    · obtain ⟨reg, _, inp, _, hrg⟩ := mem_monthlyRecords d inputs r hr
      exact process_excel_file_state_ne_region inp.grid d reg r hrg
  · simp at hr

set_option maxRecDepth 40000 in
unseal Rat.add Rat.mul Rat.inv Rat.sub in
/-- Witness for C4 at a concrete month output record. -/
theorem C4_state_ne_region_witness :
    recA ∈ process_month_data true "31-01-2024" cexInputsA
    ∧ recA.state ≠ recA.region :=
  ⟨by decide, C4_state_ne_region true "31-01-2024" cexInputsA recA (by decide)⟩

/-- C5 (amended): all nine numeric fields of every emitted record are
non-negative provided every grid cell converts to a non-negative value; a
negative numeric cell propagates into the output unchanged, so the invariant
does not hold for arbitrary grids. -/
theorem C5_fields_nonneg (avail : Bool) (d : String) (inputs : List RegionInput)
    (h : ∀ inp ∈ inputs, ∀ row ∈ inp.grid, ∀ cell ∈ row, 0 ≤ safe_numeric_convert cell) :
    ∀ r ∈ process_month_data avail d inputs, recNonneg r := by
  intro r hr
  rw [process_month_data] at hr
  split at hr
  · split at hr
    · rcases List.mem_append.mp hr with hm | hm
      · exact monthlyRecords_nonneg d inputs h r hm
      · exact allIndiaRows_nonneg _ (monthlyRecords_nonneg d inputs h) r hm
    · exact monthlyRecords_nonneg d inputs h r hr
  · simp at hr

set_option maxRecDepth 40000 in
unseal Rat.add Rat.mul Rat.inv Rat.sub in
/-- C5 (counterexample): a grid whose coal cell holds the text `"-5"` produces
a record with a negative Coal field. -/
theorem C5_fields_nonneg_cex :
    (process_excel_file gridNeg "31-01-2024" "Northern").any
      (fun r => decide (r.coal < 0)) = true := by decide

set_option maxRecDepth 40000 in
unseal Rat.add Rat.mul Rat.inv Rat.sub in
/-- Witness for C5 on a month whose cells all convert to non-negative values. -/
theorem C5_fields_nonneg_witness :
    (process_month_data true "31-01-2024" cexInputsA).all
      (fun r => decide (recNonneg r)) = true := by
  rw [List.all_eq_true]
  intro r hr
  exact decide_eq_true (C5_fields_nonneg true "31-01-2024" cexInputsA (by decide) r hr)

set_option maxRecDepth 40000 in
unseal Rat.add Rat.mul Rat.inv Rat.sub in
/-- C6: on the specification's row sequence the classifier emits exactly two
data rows, both attributed to Maharashtra; the carried state is still
Maharashtra after the `Total of Maharashtra` row and becomes Gujarat on the
final row. -/
theorem C6_classifier_scenario :
    ((runRows hsC6 1 "31-01-2024" "Western" none rowsC6).map
        (fun out => (out.2.length, out.2.all (fun r => r.state == "Maharashtra"), out.1)))
      = some (2, true, some "Gujarat")
    ∧ ((runRows hsC6 1 "31-01-2024" "Western" none (rowsC6.take 4)).map
        (fun out => (out.2.length, out.2.all (fun r => r.state == "Maharashtra"), out.1)))
      = some (2, true, some "Maharashtra") := by decide

/-- C7: on a grid whose only labels are `COAL (MW)` at row 3 column 4 and
`LIGNITE` at row 3 column 5, the locator maps Coal to column 4, Lignite to
column 5 and starts data at row 4; in general the data start row is one past
the maximal header row, or 5 when no header row was found. -/
theorem C7_header_scenario :
    (headerScan gridC7).coal_col = some 4
    ∧ (headerScan gridC7).lignite_col = some 5
    ∧ dataStartRow (headerScan gridC7) = 4
    ∧ ∀ g : List (List Cell), dataStartRow (headerScan g) =
        (if (headerScan g).header_rows.isEmpty then 5
         else maxNatList (headerScan g).header_rows + 1) :=
  ⟨by decide, by decide, by decide, fun _ => rfl⟩

/-- C8: numeric extraction is total — an absent column gives 0, an
out-of-bounds column gives 0, a missing cell gives 0, the sentinel strings
give 0, and any text the float parser rejects gives 0; no cell content can
make it fail. -/
theorem C8_numeric_extraction_total :
    (∀ row : List Cell, fieldVal row none = 0)
    ∧ (∀ (row : List Cell) (c : Nat), row.length ≤ c → fieldVal row (some c) = 0)
    ∧ safe_numeric_convert Cell.empty = 0
    ∧ (∀ s : String, pyStrip s = "nan" ∨ pyStrip s = "" ∨ pyStrip s = "None" →
        safe_numeric_convert (Cell.text s) = 0)
    ∧ (∀ s : String, parseRat (pyStrip s) = none → safe_numeric_convert (Cell.text s) = 0) := by
  refine ⟨fun row => rfl, ?_, rfl, ?_, ?_⟩
  · intro row c h
    simp [fieldVal, Nat.not_lt.mpr h]
  · intro s h
    rcases h with h | h | h <;> simp [safe_numeric_convert, h]
  · intro s h
    unfold safe_numeric_convert
    dsimp only
    split_ifs with h1
    · rfl
    · rw [h]

/-- Witness for C8: an out-of-bounds column and a non-numeric cell both
degrade to zero. -/
theorem C8_numeric_extraction_total_witness :
    fieldVal [] (some 3) = 0 ∧ safe_numeric_convert (Cell.text "12abc") = 0 :=
  ⟨C8_numeric_extraction_total.2.1 [] 3 (by decide),
   C8_numeric_extraction_total.2.2.2.2 "12abc" (by decide)⟩

/-- C9: a failed availability probe makes the month yield no records and no
download attempts, and the master table is simply the concatenation of the
other months — the orchestrator proceeds without error. -/
theorem C9_probe_failure_skips_month (pre post : List (String × MonthInput))
    (d : String) (mi : MonthInput) (h : mi.avail = false) :
    process_month_data mi.avail d mi.inputs = []
    ∧ attemptedDownloads mi.avail = []
    ∧ mainLoop (pre ++ (d, mi) :: post) = mainLoop pre ++ mainLoop post := by
  refine ⟨by rw [h]; rfl, by rw [h]; rfl, ?_⟩
  unfold mainLoop
  rw [List.map_append, List.flatten_append, List.map_cons, List.flatten_cons]
  have hz : process_month_data mi.avail d mi.inputs = [] := by rw [h]; rfl
  rw [hz]
  rfl

/-- Witness for C9 at a concrete unavailable month. -/
theorem C9_probe_failure_skips_month_witness :
    process_month_data false "31-01-2024" [] = []
    ∧ attemptedDownloads false = []
    ∧ mainLoop ([] ++ ("31-01-2024", ⟨false, []⟩) :: []) = mainLoop [] ++ mainLoop [] :=
  C9_probe_failure_skips_month [] [] "31-01-2024" ⟨false, []⟩ rfl

/-- C10: in the header scan, the state and sector columns keep the column of
the last matching cell in scan order, while the coal and grand-total columns
keep the first match and ignore later duplicates; instantiated at the real
scan, which starts from the default state (state column 1, all field columns
absent). -/
theorem C10_last_vs_first_match :
    (∀ (l : List (Nat × Nat × Cell)) (st : HeaderState),
      (headerFold l st).state_col
          = ((l.reverse.find? stateCellB).map (fun t => t.2.1)).getD st.state_col
      ∧ (headerFold l st).sector_col = (match l.reverse.find? sectorCellB with
          | some b => some b.2.1
          | none => st.sector_col)
      ∧ (headerFold l st).coal_col = (match st.coal_col with
          | some c => some c
          | none => (l.find? coalCellB).map (fun t => t.2.1))
      ∧ (headerFold l st).total_col = (match st.total_col with
          | some c => some c
          | none => (l.find? totalCellB).map (fun t => t.2.1)))
    ∧ (∀ grid : List (List Cell),
      (headerScan grid).state_col
          = (((headerCells grid).reverse.find? stateCellB).map (fun t => t.2.1)).getD 1
      ∧ (headerScan grid).coal_col = ((headerCells grid).find? coalCellB).map (fun t => t.2.1)) := by
  constructor
  · exact fun l st => ⟨headerFold_state_col l st, headerFold_sector_col l st,
      headerFold_coal_col l st, headerFold_total_col l st⟩
  · intro grid
    exact ⟨headerFold_state_col (headerCells grid) {},
      headerFold_coal_col (headerCells grid) {}⟩
